import Mathlib

/-!
Formal model of the Designer Growth Platform backend (`main.py`, `schemas.py`).

The backend is a thin HTTP façade over a document store: each endpoint either
validates a payload, fills defaults, and inserts one document, or runs a
bounded filtered fetch over one collection. We embed the documents as a
JSON-like `Value` type, the store as explicit state, and each handler of
`main.py` as a Lean function, then prove the behavioral properties stated in
the specification.

The repository module `database.py` (`db`, `create_document`, `get_documents`)
is imported by `main.py` but is not part of the available sources; the store
and the two repository operations are modelled from the specification's
description of the generic document repository (opaque string identifiers
assigned by the store, insert-as-is, bounded filtered fetch).
-/

/-- Model of a Python `datetime.datetime` value: the fields produced by
`datetime.fromisoformat`. -/
structure PyDateTime where
  year : Nat
  month : Nat
  day : Nat
  hour : Nat
  minute : Nat
  second : Nat
  microsecond : Nat
deriving DecidableEq, Repr

/-- A JSON-like dynamic value, as held in a Python dict destined for the
document store: strings, integers, datetimes (produced by `target_date`
parsing in `create_goal`), `None`, arrays, and nested objects. -/
inductive Value where
  | str (s : String)
  | int (n : Int)
  | datetime (d : PyDateTime)
  | null
  | list (xs : List Value)
  | obj (fields : List (String × Value))

mutual

/-- Decidable equality for `Value` (structural, so it computes in the kernel). -/
def Value.decEq : (a b : Value) → Decidable (a = b)
  | .str a, .str b =>
    haveI : Decidable (a = b) := inferInstance
    decidable_of_iff (a = b) (by simp)
  | .int a, .int b =>
    haveI : Decidable (a = b) := inferInstance
    decidable_of_iff (a = b) (by simp)
  | .datetime a, .datetime b =>
    haveI : Decidable (a = b) := inferInstance
    decidable_of_iff (a = b) (by simp)
  | .null, .null => .isTrue rfl
  | .list xs, .list ys =>
    haveI : Decidable (xs = ys) := decEqValueList xs ys
    decidable_of_iff (xs = ys) (by simp)
  | .obj xs, .obj ys =>
    haveI : Decidable (xs = ys) := decEqFieldList xs ys
    decidable_of_iff (xs = ys) (by simp)
  | .str _, .int _ => .isFalse (fun h => nomatch h)
  | .str _, .datetime _ => .isFalse (fun h => nomatch h)
  | .str _, .null => .isFalse (fun h => nomatch h)
  | .str _, .list _ => .isFalse (fun h => nomatch h)
  | .str _, .obj _ => .isFalse (fun h => nomatch h)
  | .int _, .str _ => .isFalse (fun h => nomatch h)
  | .int _, .datetime _ => .isFalse (fun h => nomatch h)
  | .int _, .null => .isFalse (fun h => nomatch h)
  | .int _, .list _ => .isFalse (fun h => nomatch h)
  | .int _, .obj _ => .isFalse (fun h => nomatch h)
  | .datetime _, .str _ => .isFalse (fun h => nomatch h)
  | .datetime _, .int _ => .isFalse (fun h => nomatch h)
  | .datetime _, .null => .isFalse (fun h => nomatch h)
  | .datetime _, .list _ => .isFalse (fun h => nomatch h)
  | .datetime _, .obj _ => .isFalse (fun h => nomatch h)
  | .null, .str _ => .isFalse (fun h => nomatch h)
  | .null, .int _ => .isFalse (fun h => nomatch h)
  | .null, .datetime _ => .isFalse (fun h => nomatch h)
  | .null, .list _ => .isFalse (fun h => nomatch h)
  | .null, .obj _ => .isFalse (fun h => nomatch h)
  | .list _, .str _ => .isFalse (fun h => nomatch h)
  | .list _, .int _ => .isFalse (fun h => nomatch h)
  | .list _, .datetime _ => .isFalse (fun h => nomatch h)
  | .list _, .null => .isFalse (fun h => nomatch h)
  | .list _, .obj _ => .isFalse (fun h => nomatch h)
  | .obj _, .str _ => .isFalse (fun h => nomatch h)
  | .obj _, .int _ => .isFalse (fun h => nomatch h)
  | .obj _, .datetime _ => .isFalse (fun h => nomatch h)
  | .obj _, .null => .isFalse (fun h => nomatch h)
  | .obj _, .list _ => .isFalse (fun h => nomatch h)

/-- Decidable equality for lists of values. -/
def decEqValueList : (xs ys : List Value) → Decidable (xs = ys)
  | [], [] => .isTrue rfl
  | [], _ :: _ => .isFalse (fun h => nomatch h)
  | _ :: _, [] => .isFalse (fun h => nomatch h)
  | x :: xs, y :: ys =>
    haveI : Decidable (x = y) := Value.decEq x y
    haveI : Decidable (xs = ys) := decEqValueList xs ys
    decidable_of_iff (x = y ∧ xs = ys) (by simp)

/-- Decidable equality for key/value field lists. -/
def decEqFieldList : (xs ys : List (String × Value)) → Decidable (xs = ys)
  | [], [] => .isTrue rfl
  | [], _ :: _ => .isFalse (fun h => nomatch h)
  | _ :: _, [] => .isFalse (fun h => nomatch h)
  | (k, v) :: xs, (k', v') :: ys =>
    haveI : Decidable (v = v') := Value.decEq v v'
    haveI : Decidable (xs = ys) := decEqFieldList xs ys
    decidable_of_iff (k = k' ∧ v = v' ∧ xs = ys) (by simp [and_assoc])

end

instance : DecidableEq Value := Value.decEq

/-- A document: a Python dict with string keys in insertion order. -/
abbrev Doc := List (String × Value)

/-- `d.get(k)`: first value bound to key `k`, if any. -/
def lookupField (k : String) (d : Doc) : Option Value :=
  d.lookup k

/-- `d[k] = v` on a Python dict: replace the value of an existing key in
place, or append the key at the end when absent. -/
def setField (k : String) (v : Value) : Doc → Doc
  | [] => [(k, v)]
  | (k', v') :: rest => if k' = k then (k, v) :: rest else (k', v') :: setField k v rest

/-- Wrap an optional string the way `model_dump` renders an
`Optional[str]` field: `None` becomes JSON null. -/
def optStr : Option String → Value
  | none => .null
  | some s => .str s

/-- Model of Python `str(...)` as applied to a stored `_id` value:
the store-assigned identifier is an opaque token whose string form is the
token itself (`str` on a string is the identity, `str(None)` is `"None"`,
and the store's raw identifiers render as their decimal form). -/
def pyStrOfValue : Value → String
  | .str s => s
  | .int n => toString n
  | .null => "None"
  | .datetime _ => "datetime"
  | .list _ => "list"
  | .obj _ => "obj"

/-- `it["_id"] = str(it.get("_id"))`: stringify the identifier field of a
fetched document, in place. -/
def stringifyId (d : Doc) : Doc :=
  setField "_id" (.str (pyStrOfValue ((lookupField "_id" d).getD .null))) d

/-- Read a nonempty all-digit character run as a number. -/
def digitsToNat (cs : List Char) : Option Nat :=
  if cs ≠ [] ∧ cs.all (fun c => c.isDigit) then
    some (cs.foldl (fun acc c => acc * 10 + (c.toNat - 48)) 0)
  else none

/-- Model of Python `int(s)` on a string: optional surrounding whitespace,
an optional sign, then decimal digits; anything else raises. -/
def parseIntString (s : String) : Option Int :=
  let cs := (((s.data.dropWhile (fun c => c.isWhitespace)).reverse.dropWhile
    (fun c => c.isWhitespace)).reverse)
  match cs with
  | '-' :: rest => (digitsToNat rest).map (fun n => -(n : Int))
  | '+' :: rest => (digitsToNat rest).map (fun n => (n : Int))
  | rest => (digitsToNat rest).map (fun n => (n : Int))

/-- Model of Python `int(v)` on a dynamic value: integers pass through,
integer-literal strings parse, everything else raises. -/
def pyInt (v : Value) : Option Int :=
  match v with
  | .int n => some n
  | .str s => parseIntString s
  | _ => none

/-- Gregorian leap-year test. -/
def isLeapYear (y : Nat) : Bool :=
  (y % 4 = 0 && y % 100 ≠ 0) || y % 400 = 0

/-- Number of days in a month. -/
def daysInMonth (y m : Nat) : Nat :=
  if m = 2 then (if isLeapYear y then 29 else 28)
  else if m = 4 ∨ m = 6 ∨ m = 9 ∨ m = 11 then 30
  else 31

/-- Parse the `YYYY-MM-DD` date part of an ISO string, with range checks. -/
def parseYMD : List Char → Option (Nat × Nat × Nat)
  | [a, b, c, d, s1, e, f, s2, g, h] =>
    if s1 = '-' ∧ s2 = '-' then
      match digitsToNat [a, b, c, d], digitsToNat [e, f], digitsToNat [g, h] with
      | some y, some m, some dd =>
        if 1 ≤ y ∧ 1 ≤ m ∧ m ≤ 12 ∧ 1 ≤ dd ∧ dd ≤ daysInMonth y m then
          some (y, m, dd)
        else none
      | _, _, _ => none
    else none
  | _ => none

/-- Parse the `HH:MM` or `HH:MM:SS` time part of an ISO string. -/
def parseHMS : List Char → Option (Nat × Nat × Nat)
  | [h1, h2, c1, m1, m2] =>
    if c1 = ':' then
      match digitsToNat [h1, h2], digitsToNat [m1, m2] with
      | some hh, some mm =>
        if hh ≤ 23 ∧ mm ≤ 59 then some (hh, mm, 0) else none
      | _, _ => none
    else none
  | [h1, h2, c1, m1, m2, c2, s1, s2] =>
    if c1 = ':' ∧ c2 = ':' then
      match digitsToNat [h1, h2], digitsToNat [m1, m2], digitsToNat [s1, s2] with
      | some hh, some mm, some ss =>
        if hh ≤ 23 ∧ mm ≤ 59 ∧ ss ≤ 59 then some (hh, mm, ss) else none
      | _, _, _ => none
    else none
  | _ => none

/-- Model of Python `datetime.fromisoformat` on its core grammar:
`YYYY-MM-DD`, optionally followed by a `T` or space separator and
`HH:MM[:SS]`; any other shape fails to parse. -/
def fromisoformat (s : String) : Option PyDateTime :=
  let cs := s.data
  match parseYMD (cs.take 10) with
  | none => none
  | some (y, m, d) =>
    match cs.drop 10 with
    | [] => some ⟨y, m, d, 0, 0, 0, 0⟩
    | sep :: rest =>
      if sep = 'T' ∨ sep = ' ' then
        match parseHMS rest with
        | some (hh, mm, ss) => some ⟨y, m, d, hh, mm, ss, 0⟩
        | none => none
      else none

/-- Python string slicing `s[:n]`: the first `n` characters. -/
def pySlice (s : String) (n : Nat) : String :=
  String.mk (s.data.take n)

/-- An HTTP error raised by a handler (`HTTPException(status_code, detail)`). -/
structure HTTPError where
  status : Nat
  detail : String
deriving DecidableEq, Repr

/-- Modelled from the spec: `database.py` is not among the sources. The store
holds named collections of documents and assigns fresh opaque identifiers from
a counter (the model of MongoDB's ObjectId generation). `outcomes` scripts the
result of each successive repository call — `none` for success, `some m` for a
store error with message `m`; an empty script means every call succeeds. -/
structure Store where
  colls : List (String × List Doc)
  nextId : Nat
  outcomes : List (Option String)
deriving DecidableEq

/-- The documents of one named collection (empty when absent). -/
def getColl (st : Store) (c : String) : List Doc :=
  (st.colls.lookup c).getD []

/-- Replace one collection's documents in the store's collection table. -/
def setCollList (c : String) (docs : List Doc) :
    List (String × List Doc) → List (String × List Doc)
  | [] => [(c, docs)]
  | (c', d') :: rest =>
    if c' = c then (c, docs) :: rest else (c', d') :: setCollList c docs rest

/-- Modelled from the spec: consume the next scripted repository outcome;
an error outcome makes the repository call raise with that message. -/
def repoCheck (st : Store) : Except String Store :=
  match st.outcomes with
  | [] => .ok st
  | none :: rest => .ok { st with outcomes := rest }
  | some m :: _ => .error m

/-- Modelled from the spec: `create_document(collection, document)` from
`database.py` inserts the document as-is, with the store-assigned identifier
under `_id`, and returns that identifier as an opaque string. -/
def create_document (coll : String) (doc : Doc) (st : Store) :
    Except String (String × Store) := do
  let st ← repoCheck st
  let stored := doc ++ [("_id", Value.int st.nextId)]
  .ok (toString st.nextId,
    { st with colls := setCollList coll (getColl st coll ++ [stored]) st.colls,
              nextId := st.nextId + 1 })

/-- A single condition of a MongoDB-style filter: either an equality match on
a field, or a `$in` membership test against an array field. -/
inductive QCond where
  | eqv (v : Value)
  | inList (vs : List Value)
deriving DecidableEq

/-- A filter document: a conjunction of per-field conditions. -/
abbrev Query := List (String × QCond)

/-- Whether a document satisfies one filter condition. -/
def matchCond (d : Doc) : String × QCond → Bool
  | (k, .eqv v) => lookupField k d == some v
  | (k, .inList vs) =>
    match lookupField k d with
    | some (.list xs) => xs.any (fun x => vs.contains x)
    | _ => false

/-- Whether a document satisfies every condition of a filter. -/
def matchesQuery (q : Query) (d : Doc) : Bool :=
  q.all (matchCond d)

/-- Modelled from the spec: `get_documents(collection, filter, limit)` from
`database.py` returns up to `limit` documents of the collection matching the
filter, in insertion order. -/
def get_documents (coll : String) (q : Query) (lim : Nat) (st : Store) :
    Except String (List Doc × Store) := do
  let st ← repoCheck st
  .ok ((((getColl st coll).filter (matchesQuery q)).take lim), st)

/-- Surface a repository failure as `HTTPException(status_code=500,
detail=str(e))`, the `try/except` pattern shared by every handler. -/
def tryStore {α : Type} : Except String α → Except HTTPError α
  | .ok a => .ok a
  | .error m => .error ⟨500, m⟩

/-- Truthiness of an `Optional[str]` query parameter: `None` and the empty
string are falsy. -/
def strTruthy : Option String → Bool
  | none => false
  | some s => s ≠ ""

/-- `if param: query[k] = param` — an equality condition built from an
optional parameter; absent or empty parameters impose no constraint. -/
def eqCond (k : String) (v : Option String) : Query :=
  match v with
  | some s => if s = "" then [] else [(k, QCond.eqv (.str s))]
  | none => []

/-- Render an `Optional[List[str]]` field of a `model_dump`. -/
def optStrList : Option (List String) → Value
  | none => .null
  | some xs => .list (xs.map .str)

/-- Render a competency-score map (`Dict[str, int]`). -/
def mapIntObj (m : List (String × Int)) : Value :=
  .obj (m.map (fun kv => (kv.1, .int kv.2)))

/-- Render an `Optional[Dict[str, int]]` field of a `model_dump`. -/
def optEval : Option (List (String × Int)) → Value
  | none => .null
  | some m => mapIntObj m

/-- The `CreateDesigner` request model of `main.py`. -/
structure CreateDesigner where
  name : String
  email : String
  manager_id : Option String := none
  current_level : String := "Junior"

/-- `payload.model_dump()` for a designer. -/
def designerData (p : CreateDesigner) : Doc :=
  [("name", .str p.name),
   ("email", .str p.email),
   ("manager_id", optStr p.manager_id),
   ("current_level", .str p.current_level)]

/-- `POST /api/designers`. -/
def create_designer (p : CreateDesigner) (st : Store) :
    Except HTTPError (String × Store) :=
  tryStore (create_document "designer" (designerData p) st)

/-- `GET /api/designers`: unfiltered list, cap 200, identifiers stringified. -/
def list_designers (st : Store) : Except HTTPError (List Doc) :=
  tryStore ((get_documents "designer" [] 200 st).map (fun r => r.1.map stringifyId))

/-- The `CreateGoal` request model of `main.py`; note that it has no
`progress` and no `status` field. -/
structure CreateGoal where
  designer_id : String
  title : String
  description : Option String := none
  competency_key : Option String := none
  target_date : Option String := none

/-- The `target_date` normalization of `create_goal`: a truthy string is
parsed with `datetime.fromisoformat`, keeping the raw string if parsing
raises; `None` and the empty string are left untouched. -/
def normTargetDate : Option String → Value
  | none => .null
  | some s =>
    if s = "" then .str s
    else
      match fromisoformat s with
      | some d => .datetime d
      | none => .str s

/-- The document inserted by `create_goal`: the `model_dump` with
`target_date` normalized, then `status` and `progress` defaulted (both keys
are always absent from the dump, so `setdefault` always appends them). -/
def goalData (p : CreateGoal) : Doc :=
  [("designer_id", .str p.designer_id),
   ("title", .str p.title),
   ("description", optStr p.description),
   ("competency_key", optStr p.competency_key),
   ("target_date", normTargetDate p.target_date),
   ("status", .str "not_started"),
   ("progress", .int 0)]

/-- `POST /api/goals`. -/
def create_goal (p : CreateGoal) (st : Store) :
    Except HTTPError (String × Store) :=
  tryStore (create_document "goal" (goalData p) st)

/-- `GET /api/goals?designer_id=...`: optional equality filter, cap 500. -/
def list_goals (designer_id : Option String) (st : Store) :
    Except HTTPError (List Doc) :=
  tryStore ((get_documents "goal" (eqCond "designer_id" designer_id) 500 st).map
    (fun r => r.1.map stringifyId))

/-- The `CreateAssessment` request model of `main.py`, after request
validation: `ratings: Dict[str, int]` holds integers. -/
structure CreateAssessment where
  designer_id : String
  cycle : String
  ratings : List (String × Int)
  notes : Option String := none

/-- The rating-clamping loop body of `create_assessment` on an already
validated integer: `max(1, min(4, int(v)))`. -/
def clampInt (n : Int) : Int :=
  max 1 (min 4 n)

/-- The rating-clamping loop body of `create_assessment` on a raw dynamic
value: `int(v)` with fallback to `1` when the conversion raises, then
clamping into `[1, 4]`. -/
def clampValue (v : Value) : Int :=
  clampInt ((pyInt v).getD 1)

/-- The document inserted by `create_assessment`. -/
def assessmentData (p : CreateAssessment) : Doc :=
  [("designer_id", .str p.designer_id),
   ("cycle", .str p.cycle),
   ("ratings", .obj (p.ratings.map (fun kv => (kv.1, .int (clampInt kv.2))))),
   ("notes", optStr p.notes)]

/-- `POST /api/assessments` (handler, after request validation). -/
def create_assessment (p : CreateAssessment) (st : Store) :
    Except HTTPError (String × Store) :=
  tryStore (create_document "skillassessment" (assessmentData p) st)

/-- `GET /api/assessments?designer_id=...`: required equality filter, cap
100. -/
def list_assessments (designer_id : String) (st : Store) :
    Except HTTPError (List Doc) :=
  tryStore ((get_documents "skillassessment"
    [("designer_id", QCond.eqv (.str designer_id))] 100 st).map
    (fun r => r.1.map stringifyId))

/-- A `POST /api/assessments` body before request validation: rating values
are arbitrary JSON values. -/
structure RawAssessment where
  designer_id : String
  cycle : String
  ratings : List (String × Value)
  notes : Option String := none

/-- The request-validation layer's check of one value against the declared
type `int` (lenient mode: integers and integer-literal strings pass,
everything else is a validation error). -/
def validateInt (v : Value) : Except String Int :=
  match pyInt v with
  | some n => .ok n
  | none => .error "Input should be a valid integer"

/-- Validate every value of `ratings: Dict[str, int]`. -/
def validateRatings : List (String × Value) → Except String (List (String × Int))
  | [] => .ok []
  | (k, v) :: rest => do
    let n ← validateInt v
    let tl ← validateRatings rest
    .ok ((k, n) :: tl)

/-- The request-validation step FastAPI performs against the
`CreateAssessment` model before the handler runs: a failure is returned to
the client as HTTP 422 and the handler is never entered. -/
def validateAssessment (r : RawAssessment) : Except String CreateAssessment :=
  (validateRatings r.ratings).map
    (fun rs => ⟨r.designer_id, r.cycle, rs, r.notes⟩)

/-- The full `POST /api/assessments` pipeline: request validation, then the
handler. -/
def assessments_endpoint (r : RawAssessment) (st : Store) :
    Except HTTPError (String × Store) :=
  match validateAssessment r with
  | .error m => .error ⟨422, m⟩
  | .ok p => create_assessment p st

/-- The `CreateReview` request model of `main.py`. -/
structure CreateReview where
  designer_id : String
  cycle : String
  self_eval : Option (List (String × Int)) := none
  peer_evals : Option (List (List (String × Int))) := none
  manager_eval : Option (List (String × Int)) := none
  summary : Option String := none

/-- Render the `Optional[List[Dict[str, int]]]` peer-evaluation field. -/
def optPeerEvals : Option (List (List (String × Int))) → Value
  | none => .null
  | some xs => .list (xs.map mapIntObj)

/-- The document inserted by `create_review`: the `model_dump` with the
always-absent `status` key defaulted to `"open"`. -/
def reviewData (p : CreateReview) : Doc :=
  [("designer_id", .str p.designer_id),
   ("cycle", .str p.cycle),
   ("self_eval", optEval p.self_eval),
   ("peer_evals", optPeerEvals p.peer_evals),
   ("manager_eval", optEval p.manager_eval),
   ("summary", optStr p.summary),
   ("status", .str "open")]

/-- `POST /api/reviews`. -/
def create_review (p : CreateReview) (st : Store) :
    Except HTTPError (String × Store) :=
  tryStore (create_document "review" (reviewData p) st)

/-- `GET /api/reviews?designer_id=...&cycle=...`: two optional equality
filters combined with AND, cap 200. -/
def list_reviews (designer_id cycle : Option String) (st : Store) :
    Except HTTPError (List Doc) :=
  tryStore ((get_documents "review"
    (eqCond "designer_id" designer_id ++ eqCond "cycle" cycle) 200 st).map
    (fun r => r.1.map stringifyId))

/-- The `CreateGuild` request model of `main.py`. -/
structure CreateGuild where
  name : String
  description : Option String := none

/-- The document inserted by `create_guild`. -/
def guildData (p : CreateGuild) : Doc :=
  [("name", .str p.name),
   ("description", optStr p.description)]

/-- `POST /api/guilds`. -/
def create_guild (p : CreateGuild) (st : Store) :
    Except HTTPError (String × Store) :=
  tryStore (create_document "guild" (guildData p) st)

/-- `GET /api/guilds`: unfiltered list, cap 200. -/
def list_guilds (st : Store) : Except HTTPError (List Doc) :=
  tryStore ((get_documents "guild" [] 200 st).map (fun r => r.1.map stringifyId))

/-- The `CreateMentorship` request model of `main.py`. -/
structure CreateMentorship where
  mentor_id : String
  mentee_id : String
  status : Option String := some "active"

/-- The document inserted by `create_mentorship`: the `model_dump` with the
always-absent `activities` key defaulted to `[]`. -/
def mentorshipData (p : CreateMentorship) : Doc :=
  [("mentor_id", .str p.mentor_id),
   ("mentee_id", .str p.mentee_id),
   ("status", optStr p.status),
   ("activities", .list [])]

/-- `POST /api/mentorships`. -/
def create_mentorship (p : CreateMentorship) (st : Store) :
    Except HTTPError (String × Store) :=
  tryStore (create_document "mentorship" (mentorshipData p) st)

/-- `GET /api/mentorships?mentor_id=...&mentee_id=...`: two optional
equality filters, cap 200. -/
def list_mentorships (mentor_id mentee_id : Option String) (st : Store) :
    Except HTTPError (List Doc) :=
  tryStore ((get_documents "mentorship"
    (eqCond "mentor_id" mentor_id ++ eqCond "mentee_id" mentee_id) 200 st).map
    (fun r => r.1.map stringifyId))

/-- The `CreateResource` request model of `main.py`. -/
structure CreateResource where
  title : String
  url : String
  provider : Option String := none
  tags : Option (List String) := none

/-- The document inserted by `create_resource`: the `tags` key is present in
the `model_dump` (as `None` when omitted by the client), so
`setdefault("tags", [])` never fires. -/
def resourceData (p : CreateResource) : Doc :=
  [("title", .str p.title),
   ("url", .str p.url),
   ("provider", optStr p.provider),
   ("tags", optStrList p.tags)]

/-- `POST /api/resources`. -/
def create_resource (p : CreateResource) (st : Store) :
    Except HTTPError (String × Store) :=
  tryStore (create_document "trainingresource" (resourceData p) st)

/-- The membership filter built by `list_resources`:
`query["tags"] = {"$in": [tag]}` for a truthy tag. -/
def tagCond (tag : Option String) : Query :=
  match tag with
  | some s => if s = "" then [] else [("tags", QCond.inList [.str s])]
  | none => []

/-- `GET /api/resources?tag=...`: optional membership filter, cap 200. -/
def list_resources (tag : Option String) (st : Store) :
    Except HTTPError (List Doc) :=
  tryStore ((get_documents "trainingresource" (tagCond tag) 200 st).map
    (fun r => r.1.map stringifyId))

/-- The `CreateProject` request model of `main.py`. -/
structure CreateProject where
  name : String
  description : Option String := none
  manager_id : Option String := none
  designers : Option (List String) := none

/-- The document inserted by `create_project`: `designers` is present in the
dump (possibly `None`), so its `setdefault` never fires; `stages` is absent
and is always defaulted to `[]`. -/
def projectData (p : CreateProject) : Doc :=
  [("name", .str p.name),
   ("description", optStr p.description),
   ("manager_id", optStr p.manager_id),
   ("designers", optStrList p.designers),
   ("stages", .list [])]

/-- `POST /api/projects`. -/
def create_project (p : CreateProject) (st : Store) :
    Except HTTPError (String × Store) :=
  tryStore (create_document "project" (projectData p) st)

/-- The membership filter built by `list_projects` for a truthy
`designer_id`: `query["designers"] = {"$in": [designer_id]}`. -/
def designersCond (designer_id : Option String) : Query :=
  match designer_id with
  | some s => if s = "" then [] else [("designers", QCond.inList [.str s])]
  | none => []

/-- `GET /api/projects?manager_id=...&designer_id=...`: optional equality
and membership filters, cap 200. -/
def list_projects (manager_id designer_id : Option String) (st : Store) :
    Except HTTPError (List Doc) :=
  tryStore ((get_documents "project"
    (eqCond "manager_id" manager_id ++ designersCond designer_id) 200 st).map
    (fun r => r.1.map stringifyId))

/-- The `CreateNotification` request model of `main.py`. -/
structure CreateNotification where
  user_id : String
  kind : String
  message : String
  sent_via : Option (List String) := none

/-- The document inserted by `create_notification`: `sent_via` is present in
the dump (possibly `None`), so its `setdefault` never fires. -/
def notificationData (p : CreateNotification) : Doc :=
  [("user_id", .str p.user_id),
   ("kind", .str p.kind),
   ("message", .str p.message),
   ("sent_via", optStrList p.sent_via)]

/-- `POST /api/notifications`. -/
def create_notification (p : CreateNotification) (st : Store) :
    Except HTTPError (String × Store) :=
  tryStore (create_document "notification" (notificationData p) st)

/-- `GET /api/notifications?user_id=...`: optional equality filter, cap
200. -/
def list_notifications (user_id : Option String) (st : Store) :
    Except HTTPError (List Doc) :=
  tryStore ((get_documents "notification" (eqCond "user_id" user_id) 200 st).map
    (fun r => r.1.map stringifyId))

/-- The static `COMPETENCIES` reference table of `main.py`. -/
def COMPETENCIES : List Doc :=
  [[("key", .str "product_strategy"), ("title", .str "Product Strategy")],
   [("key", .str "craft_quality"), ("title", .str "Craft Quality")],
   [("key", .str "collaboration"), ("title", .str "Collaboration")],
   [("key", .str "impact"), ("title", .str "Impact")],
   [("key", .str "mentorship"), ("title", .str "Mentorship")]]

/-- The static `CAREER_LEVELS` reference table of `main.py`. -/
def CAREER_LEVELS : List Doc :=
  [[("level", .str "Junior"), ("expectations", .obj
      [("craft_quality", .str "Executes with guidance"),
       ("collaboration", .str "Communicates within team"),
       ("impact", .str "Delivers assigned tasks")])],
   [("level", .str "Mid"), ("expectations", .obj
      [("product_strategy", .str "Contributes to product thinking"),
       ("craft_quality", .str "Owns features end-to-end"),
       ("collaboration", .str "Works cross-functionally"),
       ("impact", .str "Improves team outcomes")])],
   [("level", .str "Senior"), ("expectations", .obj
      [("product_strategy", .str "Shapes problem spaces"),
       ("craft_quality", .str "Raises quality bar"),
       ("collaboration", .str "Aligns stakeholders"),
       ("impact", .str "Leads complex initiatives"),
       ("mentorship", .str "Coaches designers")])],
   [("level", .str "Staff"), ("expectations", .obj
      [("product_strategy", .str "Drives multi-team strategy"),
       ("impact", .str "Org-level outcomes"),
       ("mentorship", .str "Grows design org")])],
   [("level", .str "Principal"), ("expectations", .obj
      [("product_strategy", .str "Company-level strategy"),
       ("impact", .str "Industry influence"),
       ("mentorship", .str "Builds leaders")])]]

/-- A list of documents as a JSON array value. -/
def docsValue (ds : List Doc) : Value :=
  .list (ds.map .obj)

/-- The two static reference entries at the head of every `/api/summary`
response. -/
def summaryBase : Doc :=
  [("competencies", docsValue COMPETENCIES),
   ("career_levels", docsValue CAREER_LEVELS)]

/-- `GET /api/summary?designer_id=...`: for a truthy designer identifier,
three fan-out fetches (goals capped at 100, skill assessments and reviews at
10) filtered by that designer, identifiers stringified, appended to the
static reference tables; otherwise the reference tables alone. -/
def summary (designer_id : Option String) (st : Store) : Except HTTPError Doc :=
  match designer_id with
  | none => .ok summaryBase
  | some s =>
    if s = "" then .ok summaryBase
    else
      tryStore (do
        let (goals, st1) ← get_documents "goal"
          [("designer_id", QCond.eqv (.str s))] 100 st
        let (asses, st2) ← get_documents "skillassessment"
          [("designer_id", QCond.eqv (.str s))] 10 st1
        let (reviews, _) ← get_documents "review"
          [("designer_id", QCond.eqv (.str s))] 10 st2
        .ok (summaryBase ++
          [("goals", docsValue (goals.map stringifyId)),
           ("assessments", docsValue (asses.map stringifyId)),
           ("reviews", docsValue (reviews.map stringifyId))]))

/-- The response shape of `GET /test`. -/
structure TestInfo where
  backend : String
  database : String
  collections : List String
deriving DecidableEq

/-- `GET /test`: reports liveness always, then the store handle's state. The
handle is modelled as absent (`none`) or present and scripted with the
outcome of `list_collection_names()` — a collection-name list or a raised
error message. The handler sets `"✅ Connected"` before enumerating, so a
raised error overwrites the database field with the truncated message while
`collections` stays empty; no path raises an HTTP error. -/
def test_database (db : Option (Except String (List String))) : TestInfo :=
  match db with
  | none => ⟨"✅ Running", "❌ Not Connected", []⟩
  | some (.ok names) => ⟨"✅ Running", "✅ Connected", names⟩
  | some (.error e) => ⟨"✅ Running", "⚠️ " ++ pySlice e 120, []⟩

theorem lookupField_setField_self (k : String) (v : Value) (d : Doc) :
    lookupField k (setField k v d) = some v := by
  induction d with
  | nil => simp [setField, lookupField, List.lookup]
  | cons kv rest ih =>
    obtain ⟨k', v'⟩ := kv
    by_cases h : k' = k
    · simp [setField, h, lookupField, List.lookup]
    · simp only [setField, if_neg h]
      simpa [lookupField, List.lookup,
        beq_eq_false_iff_ne.mpr (Ne.symm h)] using ih

theorem lookupField_setField_ne (k k' : String) (v : Value) (d : Doc) (h : k ≠ k') :
    lookupField k (setField k' v d) = lookupField k d := by
  induction d with
  | nil => simp [setField, lookupField, List.lookup, beq_eq_false_iff_ne.mpr h]
  | cons kv rest ih =>
    obtain ⟨k'', v''⟩ := kv
    by_cases h2 : k'' = k'
    · subst h2
      simp [setField, lookupField, List.lookup, beq_eq_false_iff_ne.mpr h]
    · simp only [setField, if_neg h2]
      by_cases h3 : k = k''
      · subst h3
        simp [lookupField, List.lookup]
      · simpa [lookupField, List.lookup, beq_eq_false_iff_ne.mpr h3] using ih

theorem lookupField_stringifyId (k : String) (d : Doc) (h : k ≠ "_id") :
    lookupField k (stringifyId d) = lookupField k d :=
  lookupField_setField_ne k "_id" _ d h

theorem lookupField_append_right (k : String) (d1 d2 : Doc)
    (h : lookupField k d1 = none) :
    lookupField k (d1 ++ d2) = lookupField k d2 := by
  induction d1 with
  | nil => rfl
  | cons kv rest ih =>
    obtain ⟨k', v'⟩ := kv
    rw [List.cons_append]
    unfold lookupField at h ⊢
    cases hk : (k == k') with
    | true => simp [List.lookup, hk] at h
    | false =>
      simp only [List.lookup, hk] at h ⊢
      exact ih h

theorem lookup_setCollList_self (c : String) (docs : List Doc)
    (l : List (String × List Doc)) :
    (setCollList c docs l).lookup c = some docs := by
  induction l with
  | nil => simp [setCollList, List.lookup]
  | cons kv rest ih =>
    obtain ⟨c', d'⟩ := kv
    by_cases h : c' = c
    · simp [setCollList, h, List.lookup]
    · simp only [setCollList, if_neg h]
      simpa [List.lookup, beq_eq_false_iff_ne.mpr (Ne.symm h)] using ih

theorem getColl_setCollList_self (c : String) (docs : List Doc) (st : Store) :
    getColl ⟨setCollList c docs st.colls, st.nextId + 1, st.outcomes⟩ c = docs := by
  simp [getColl, lookup_setCollList_self]

theorem matchesQuery_nil (d : Doc) : matchesQuery [] d = true := rfl

theorem filter_matchesQuery_nil (l : List Doc) : l.filter (matchesQuery []) = l := by
  have h : (matchesQuery []) = fun _ : Doc => true := funext (fun d => matchesQuery_nil d)
  rw [h, List.filter_true]

theorem matchesQuery_eq_single (k : String) (v : Value) (d : Doc) :
    matchesQuery [(k, QCond.eqv v)] d = true ↔ lookupField k d = some v := by
  simp [matchesQuery, matchCond]

theorem matchesQuery_in_single (k : String) (v : Value) (d : Doc) :
    matchesQuery [(k, QCond.inList [v])] d = true ↔
      ∃ xs, lookupField k d = some (.list xs) ∧ v ∈ xs := by
  simp only [matchesQuery, List.all_cons, List.all_nil, Bool.and_true, matchCond]
  cases h : lookupField k d with
  | none => simp
  | some val =>
    cases val with
    | list xs => simp [List.any_eq_true, List.contains]
    | str s => simp
    | int n => simp
    | datetime dt => simp
    | null => simp
    | obj fs => simp

theorem repoCheck_empty (st : Store) (h : st.outcomes = []) :
    repoCheck st = .ok st := by
  simp [repoCheck, h]

theorem create_document_ok (coll : String) (doc : Doc) (st : Store)
    (h : st.outcomes = []) :
    create_document coll doc st = .ok (toString st.nextId,
      ⟨setCollList coll (getColl st coll ++ [doc ++ [("_id", Value.int st.nextId)]])
        st.colls, st.nextId + 1, st.outcomes⟩) := by
  simp only [create_document, bind, Except.bind, repoCheck_empty st h]

theorem get_documents_ok (coll : String) (q : Query) (lim : Nat) (st : Store)
    (h : st.outcomes = []) :
    get_documents coll q lim st =
      .ok ((((getColl st coll).filter (matchesQuery q)).take lim), st) := by
  simp only [get_documents, bind, Except.bind, repoCheck_empty st h]

/-- C2: for every valid Goal create payload, the stored goal's progress is
within [0,100]; the payload model has no progress or status field, so the
handler always defaults `progress` to 0 and `status` to `"not_started"`, and
the inserted document is exactly `goalData p`. -/
theorem goal_progress_in_range_and_defaults (p : CreateGoal) (st : Store)
    (h : st.outcomes = []) :
    (∀ n : Int, lookupField "progress" (goalData p) = some (.int n) →
      0 ≤ n ∧ n ≤ 100) ∧
    lookupField "progress" (goalData p) = some (.int 0) ∧
    lookupField "status" (goalData p) = some (.str "not_started") ∧
    create_goal p st = .ok (toString st.nextId,
      ⟨setCollList "goal"
        (getColl st "goal" ++ [goalData p ++ [("_id", Value.int st.nextId)]])
        st.colls, st.nextId + 1, st.outcomes⟩) := by
  refine ⟨?_, ?_, ?_, ?_⟩
  · intro n hn
    simp [goalData, lookupField, List.lookup] at hn
    omega
  · simp [goalData, lookupField, List.lookup]
  · simp [goalData, lookupField, List.lookup]
  · unfold create_goal
    rw [create_document_ok _ _ _ h]
    rfl

/-- Witness for C2 at a concrete payload and an empty healthy store. -/
theorem goal_progress_in_range_and_defaults_witness :
    lookupField "progress" (goalData ⟨"d1", "Improve craft", none, none, none⟩) =
      some (.int 0) ∧
    lookupField "status" (goalData ⟨"d1", "Improve craft", none, none, none⟩) =
      some (.str "not_started") :=
  ⟨(goal_progress_in_range_and_defaults ⟨"d1", "Improve craft", none, none, none⟩
      ⟨[], 0, []⟩ rfl).2.1,
   (goal_progress_in_range_and_defaults ⟨"d1", "Improve craft", none, none, none⟩
      ⟨[], 0, []⟩ rfl).2.2.1⟩

/-- C5: goal creation never raises on an unparseable `target_date`: a string
that `fromisoformat` rejects is stored as the original string, a parseable
one is stored converted to a datetime, and the create succeeds either way on
a healthy store. -/
theorem goal_target_date_soft_fail (p : CreateGoal) (st : Store) (s : String)
    (d : PyDateTime) (h : st.outcomes = []) :
    (fromisoformat s = none → normTargetDate (some s) = .str s) ∧
    (fromisoformat s = some d → normTargetDate (some s) = .datetime d) ∧
    lookupField "target_date" (goalData p) = some (normTargetDate p.target_date) ∧
    ∃ st', create_goal p st = .ok (toString st.nextId, st') := by
  refine ⟨?_, ?_, ?_, ?_⟩
  · intro hn
    by_cases hs : s = ""
    · subst hs
      rfl
    · simp [normTargetDate, hs, hn]
  · intro hp
    by_cases hs : s = ""
    · subst hs
      have hnone : fromisoformat "" = none := rfl
      rw [hnone] at hp
      exact absurd hp (by simp)
    · simp [normTargetDate, hs, hp]
  · simp [goalData, lookupField, List.lookup]
  · refine ⟨⟨setCollList "goal"
      (getColl st "goal" ++ [goalData p ++ [("_id", Value.int st.nextId)]])
      st.colls, st.nextId + 1, st.outcomes⟩, ?_⟩
    unfold create_goal
    rw [create_document_ok _ _ _ h]
    rfl

/-- Witness for C5: an unparseable date string survives unchanged, a
parseable one converts. -/
theorem goal_target_date_soft_fail_witness :
    normTargetDate (some "not-a-date") = .str "not-a-date" ∧
    normTargetDate (some "2025-06-15") = .datetime ⟨2025, 6, 15, 0, 0, 0, 0⟩ :=
  ⟨(goal_target_date_soft_fail ⟨"d1", "t", none, none, some "not-a-date"⟩
      ⟨[], 0, []⟩ "not-a-date" ⟨2025, 6, 15, 0, 0, 0, 0⟩ rfl).1 (by decide),
   (goal_target_date_soft_fail ⟨"d1", "t", none, none, some "2025-06-15"⟩
      ⟨[], 0, []⟩ "2025-06-15" ⟨2025, 6, 15, 0, 0, 0, 0⟩ rfl).2.1 (by decide)⟩

/-- C9: `GET /test` is total (never an HTTP error): an absent store handle
reports `"❌ Not Connected"`, a failing collection enumeration reports a
distinct warning variant carrying the message truncated to 120 characters
with no collections, and a connected store reports `"✅ Connected"` with the
collection names. -/
theorem test_endpoint_reports (names : List String) (e : String) :
    test_database none = ⟨"✅ Running", "❌ Not Connected", []⟩ ∧
    test_database (some (.ok names)) = ⟨"✅ Running", "✅ Connected", names⟩ ∧
    test_database (some (.error e)) =
      ⟨"✅ Running", "⚠️ " ++ pySlice e 120, []⟩ ∧
    (pySlice e 120).length ≤ 120 ∧
    "⚠️ " ++ pySlice e 120 ≠ "❌ Not Connected" ∧
    "⚠️ " ++ pySlice e 120 ≠ "✅ Connected" := by
  refine ⟨rfl, rfl, rfl, ?_, ?_, ?_⟩
  · show (String.mk (e.data.take 120)).length ≤ 120
    simp only [String.length, List.length_take]
    omega
  · intro h
    have h2 := congrArg String.data h
    simp only [String.data_append] at h2
    simp at h2
  · intro h
    have h2 := congrArg String.data h
    simp only [String.data_append] at h2
    simp at h2

/-- Witness for C9 at a concrete error message. -/
theorem test_endpoint_reports_witness :
    test_database (some (.error "boom")) =
      ⟨"✅ Running", "⚠️ " ++ pySlice "boom" 120, []⟩ ∧
    "⚠️ " ++ pySlice "boom" 120 ≠ "❌ Not Connected" :=
  ⟨(test_endpoint_reports [] "boom").2.2.1,
   (test_endpoint_reports [] "boom").2.2.2.2.1⟩

theorem validateRatings_error (l : List (String × Value)) (k : String) (v : Value)
    (hkv : (k, v) ∈ l) (hv : pyInt v = none) :
    validateRatings l = .error "Input should be a valid integer" := by
  induction l with
  | nil => cases hkv
  | cons kv rest ih =>
    obtain ⟨k', v'⟩ := kv
    cases hp : pyInt v' with
    | none => simp [validateRatings, validateInt, hp, bind, Except.bind]
    | some n =>
      have hmem : (k, v) ∈ rest := by
        rcases List.mem_cons.mp hkv with heq | hm
        · obtain ⟨rfl, rfl⟩ := Prod.mk.injEq .. ▸ heq
          rw [hp] at hv
          exact absurd hv (by simp)
        · exact hm
      cases hrec : validateRatings rest with
      | error m =>
        rw [ih hmem] at hrec
        injection hrec with hm
        subst hm
        simp [validateRatings, validateInt, hp, bind, Except.bind, ih hmem]
      | ok tl =>
        rw [ih hmem] at hrec
        exact absurd hrec (by simp)

/-- C1 (amended): every rating value stored by the assessments endpoint is
clamped into [1,4] (a submitted 9 is stored as 4), while a payload holding a
non-numeric rating value never reaches the handler: the request-validation
layer rejects it with HTTP 422, so no rating is coerced to 1 and stored. -/
theorem assessment_ratings_clamped (p : CreateAssessment) (r : RawAssessment)
    (st : Store) (k : String) (v : Value)
    (hkv : (k, v) ∈ r.ratings) (hv : pyInt v = none) :
    lookupField "ratings" (assessmentData p) =
      some (.obj (p.ratings.map (fun kv => (kv.1, Value.int (clampInt kv.2))))) ∧
    (∀ k' n, (k', Value.int n) ∈
        p.ratings.map (fun kv => (kv.1, Value.int (clampInt kv.2))) →
      1 ≤ n ∧ n ≤ 4) ∧
    clampInt 9 = 4 ∧
    assessments_endpoint r st = .error ⟨422, "Input should be a valid integer"⟩ := by
  refine ⟨?_, ?_, rfl, ?_⟩
  · simp [assessmentData, lookupField, List.lookup]
  · intro k' n hmem
    rcases List.mem_map.mp hmem with ⟨kv, _, heq⟩
    have hn : n = clampInt kv.2 := by
      have := congrArg Prod.snd heq
      simp at this
      omega
    subst hn
    unfold clampInt
    constructor
    · exact le_max_left 1 _
    · exact max_le (by norm_num) (min_le_left 4 _)
  · simp [assessments_endpoint, validateAssessment,
      validateRatings_error r.ratings k v hkv hv, Except.map]

/-- Counterexample for C1 as stated: a payload whose rating value is the
non-numeric string `"oops"` is not stored with that rating coerced to 1 —
the request fails validation with HTTP 422 and nothing is inserted. -/
theorem assessment_nonnumeric_rejected_cex :
    assessments_endpoint
      ⟨"d1", "2025-H1", [("craft_quality", Value.str "oops")], none⟩
      ⟨[], 0, []⟩ = .error ⟨422, "Input should be a valid integer"⟩ := by
  rfl

/-- Witness for C1's amended theorem at concrete inputs. -/
theorem assessment_ratings_clamped_witness :
    clampInt 9 = 4 ∧
    assessments_endpoint
      ⟨"d1", "2025-H1", [("craft_quality", Value.str "oops")], none⟩
      ⟨[], 1, []⟩ = .error ⟨422, "Input should be a valid integer"⟩ :=
  ⟨(assessment_ratings_clamped ⟨"d1", "2025-H1", [("craft_quality", 9)], none⟩
      ⟨"d1", "2025-H1", [("craft_quality", Value.str "oops")], none⟩ ⟨[], 1, []⟩
      "craft_quality" (Value.str "oops") (by simp) rfl).2.2.1,
   (assessment_ratings_clamped ⟨"d1", "2025-H1", [("craft_quality", 9)], none⟩
      ⟨"d1", "2025-H1", [("craft_quality", Value.str "oops")], none⟩ ⟨[], 1, []⟩
      "craft_quality" (Value.str "oops") (by simp) rfl).2.2.2⟩

/-- C10: supplying an optional filter parameter as the empty string builds no
constraint (Python truthiness), so every list endpoint behaves exactly as if
the parameter were omitted, and the whole collection is returned up to the
cap. -/
theorem empty_string_filter_param_is_omitted (st : Store) (other : Option String) :
    list_goals (some "") st = list_goals none st ∧
    list_reviews (some "") other st = list_reviews none other st ∧
    list_reviews other (some "") st = list_reviews other none st ∧
    list_mentorships (some "") other st = list_mentorships none other st ∧
    list_mentorships other (some "") st = list_mentorships other none st ∧
    list_resources (some "") st = list_resources none st ∧
    list_projects (some "") other st = list_projects none other st ∧
    list_projects other (some "") st = list_projects other none st ∧
    list_notifications (some "") st = list_notifications none st ∧
    (st.outcomes = [] →
      list_goals (some "") st = .ok (((getColl st "goal").take 500).map stringifyId)) := by
  refine ⟨rfl, rfl, ?_, rfl, ?_, rfl, rfl, ?_, rfl, ?_⟩
  · simp [list_reviews, eqCond]
  · simp [list_mentorships, eqCond]
  · simp [list_projects, designersCond]
  · intro h
    unfold list_goals
    rw [get_documents_ok _ _ _ _ h]
    simp [tryStore, Except.map, eqCond, filter_matchesQuery_nil]

/-- Witness for C10: with one goal stored, the empty-string filter returns
it (rather than matching nothing). -/
theorem empty_string_filter_param_is_omitted_witness :
    list_goals (some "")
      ⟨[("goal", [[("designer_id", Value.str "d1"), ("_id", Value.int 0)]])], 1, []⟩ =
      .ok [[("designer_id", Value.str "d1"), ("_id", Value.str "0")]] := by
  rw [(empty_string_filter_param_is_omitted
    ⟨[("goal", [[("designer_id", Value.str "d1"), ("_id", Value.int 0)]])], 1, []⟩
    none).2.2.2.2.2.2.2.2.2 rfl]
  rfl

/-- Counterexample for C6 as stated: with `X` the empty string,
`GET /api/goals?designer_id=X` builds no constraint (empty string is falsy),
so it returns a goal whose `designer_id` is `"d1"`, not equal to `X`. -/
theorem goals_filter_empty_string_cex :
    list_goals (some "")
      ⟨[("goal", [[("designer_id", Value.str "d1"), ("_id", Value.int 7)]])], 8, []⟩ =
      .ok [[("designer_id", Value.str "d1"), ("_id", Value.str "7")]] ∧
    lookupField "designer_id"
      [("designer_id", Value.str "d1"), ("_id", Value.str "7")] ≠
      some (Value.str "") := by
  exact ⟨rfl, by decide⟩

/-- C6 (amended): for a nonempty `X`, `GET /api/goals?designer_id=X` returns
only documents whose `designer_id` equals `X` and an empty array (not an
error) when none match; for a nonempty `T`, `GET /api/resources?tag=T`
returns only documents whose `tags` array contains `T`. -/
theorem goals_and_resources_filter_correct (X T : String) (st : Store)
    (hX : X ≠ "") (hT : T ≠ "") (h : st.outcomes = []) :
    (∃ items, list_goals (some X) st = .ok items ∧
      ∀ d ∈ items, lookupField "designer_id" d = some (.str X)) ∧
    ((∀ d ∈ getColl st "goal", lookupField "designer_id" d ≠ some (.str X)) →
      list_goals (some X) st = .ok []) ∧
    (∃ items, list_resources (some T) st = .ok items ∧
      ∀ d ∈ items, ∃ xs, lookupField "tags" d = some (.list xs) ∧
        Value.str T ∈ xs) := by
  have hqX : eqCond "designer_id" (some X) = [("designer_id", QCond.eqv (.str X))] := by
    simp [eqCond, hX]
  have hqT : tagCond (some T) = [("tags", QCond.inList [.str T])] := by
    simp [tagCond, hT]
  refine ⟨⟨(((getColl st "goal").filter
      (matchesQuery (eqCond "designer_id" (some X)))).take 500).map stringifyId,
      ?_, ?_⟩, ?_, ⟨(((getColl st "trainingresource").filter
      (matchesQuery (tagCond (some T)))).take 200).map stringifyId, ?_, ?_⟩⟩
  · unfold list_goals
    rw [get_documents_ok _ _ _ _ h]
    rfl
  · intro d hd
    rcases List.mem_map.mp hd with ⟨d', hd', rfl⟩
    have hmatch := (List.mem_filter.mp (List.mem_of_mem_take hd')).2
    rw [hqX] at hmatch
    rw [lookupField_stringifyId _ _ (by decide)]
    exact (matchesQuery_eq_single _ _ _).mp hmatch
  · intro hnone
    unfold list_goals
    rw [get_documents_ok _ _ _ _ h]
    have hfil : (getColl st "goal").filter
        (matchesQuery (eqCond "designer_id" (some X))) = [] := by
      rw [List.filter_eq_nil_iff]
      intro d hd
      rw [hqX]
      intro hm
      exact hnone d hd ((matchesQuery_eq_single _ _ _).mp hm)
    simp [tryStore, Except.map, hfil]
  · unfold list_resources
    rw [get_documents_ok _ _ _ _ h]
    rfl
  · intro d hd
    rcases List.mem_map.mp hd with ⟨d', hd', rfl⟩
    have hmatch := (List.mem_filter.mp (List.mem_of_mem_take hd')).2
    rw [hqT] at hmatch
    rcases (matchesQuery_in_single _ _ _).mp hmatch with ⟨xs, hxs, hmem⟩
    refine ⟨xs, ?_, hmem⟩
    rw [lookupField_stringifyId _ _ (by decide)]
    exact hxs

/-- Witness for C6's amended theorem: a goal filter that matches nothing
yields an empty array, and a matching resource tag filter returns the
document whose tags contain the tag. -/
theorem goals_and_resources_filter_correct_witness :
    list_goals (some "dX")
      ⟨[("goal", [[("designer_id", Value.str "d1"), ("_id", Value.int 0)]])],
        1, []⟩ = .ok [] :=
  (goals_and_resources_filter_correct "dX" "lean"
    ⟨[("goal", [[("designer_id", Value.str "d1"), ("_id", Value.int 0)]])], 1, []⟩
    (by decide) (by decide) rfl).2.1 (by decide)

theorem lookup_of_mem_eq_fetch (l : List Doc) (k : String) (v : Value) (n : Nat)
    (d : Doc) (hk : k ≠ "_id")
    (hd : d ∈ ((l.filter (matchesQuery [(k, QCond.eqv v)])).take n).map stringifyId) :
    lookupField k d = some v := by
  rcases List.mem_map.mp hd with ⟨d', hd', rfl⟩
  have hmatch := (List.mem_filter.mp (List.mem_of_mem_take hd')).2
  rw [lookupField_stringifyId _ _ hk]
  exact (matchesQuery_eq_single _ _ _).mp hmatch

/-- C7: `GET /api/summary` with a (truthy) designer identifier returns one
object holding exactly the static reference tables followed by at most 100
goals, 10 skill assessments and 10 reviews, each list fetched with the
designer-equality filter and identifiers stringified — nothing else. -/
theorem summary_composite (st : Store) (did : String) (hd : did ≠ "")
    (h : st.outcomes = []) :
    ∃ gs ass rvs,
      gs = (((getColl st "goal").filter
        (matchesQuery [("designer_id", QCond.eqv (.str did))])).take 100).map
          stringifyId ∧
      ass = (((getColl st "skillassessment").filter
        (matchesQuery [("designer_id", QCond.eqv (.str did))])).take 10).map
          stringifyId ∧
      rvs = (((getColl st "review").filter
        (matchesQuery [("designer_id", QCond.eqv (.str did))])).take 10).map
          stringifyId ∧
      summary (some did) st = .ok (summaryBase ++
        [("goals", docsValue gs), ("assessments", docsValue ass),
         ("reviews", docsValue rvs)]) ∧
      gs.length ≤ 100 ∧ ass.length ≤ 10 ∧ rvs.length ≤ 10 ∧
      (∀ d ∈ gs, lookupField "designer_id" d = some (.str did)) ∧
      (∀ d ∈ ass, lookupField "designer_id" d = some (.str did)) ∧
      (∀ d ∈ rvs, lookupField "designer_id" d = some (.str did)) := by
  refine ⟨_, _, _, rfl, rfl, rfl, ?_, ?_, ?_, ?_, ?_, ?_, ?_⟩
  · simp only [summary]
    rw [if_neg hd]
    rw [get_documents_ok _ _ _ _ h]
    simp only [bind, Except.bind]
    rw [get_documents_ok _ _ _ _ h]
    simp only [bind, Except.bind]
    rw [get_documents_ok _ _ _ _ h]
    rfl
  · simp only [List.length_map, List.length_take]
    omega
  · simp only [List.length_map, List.length_take]
    omega
  · simp only [List.length_map, List.length_take]
    omega
  · exact fun d hd2 => lookup_of_mem_eq_fetch _ _ _ _ _ (by decide) hd2
  · exact fun d hd2 => lookup_of_mem_eq_fetch _ _ _ _ _ (by decide) hd2
  · exact fun d hd2 => lookup_of_mem_eq_fetch _ _ _ _ _ (by decide) hd2

/-- Witness for C7 at a one-goal store. -/
theorem summary_composite_witness :
    summary (some "d1")
      ⟨[("goal", [[("designer_id", Value.str "d1"), ("_id", Value.int 0)]])],
        1, []⟩ = .ok (summaryBase ++
      [("goals", docsValue [[("designer_id", Value.str "d1"), ("_id", Value.str "0")]]),
       ("assessments", docsValue []),
       ("reviews", docsValue [])]) := by
  rcases summary_composite
    ⟨[("goal", [[("designer_id", Value.str "d1"), ("_id", Value.int 0)]])], 1, []⟩
    "d1" (by decide) rfl with ⟨gs, ass, rvs, hgs, has2, hrs, heq, _⟩
  rw [hgs, has2, hrs] at heq
  exact heq

/-- C8: when the next repository call raises with message `m`, every create
and list handler catches it and returns HTTP 500 with `m` as detail; the
result does not depend on the outcomes scripted after the failure, i.e. no
retry is attempted. -/
theorem store_errors_surface_as_500 (m : String) (rest : List (Option String))
    (colls : List (String × List Doc)) (nid : Nat)
    (pd : CreateDesigner) (pg : CreateGoal) (pa : CreateAssessment)
    (pr : CreateReview) (pu : CreateGuild) (pm : CreateMentorship)
    (ps : CreateResource) (pp : CreateProject) (pn : CreateNotification)
    (o1 o2 : Option String) (rq : String) :
    create_designer pd ⟨colls, nid, some m :: rest⟩ = .error ⟨500, m⟩ ∧
    list_designers ⟨colls, nid, some m :: rest⟩ = .error ⟨500, m⟩ ∧
    create_goal pg ⟨colls, nid, some m :: rest⟩ = .error ⟨500, m⟩ ∧
    list_goals o1 ⟨colls, nid, some m :: rest⟩ = .error ⟨500, m⟩ ∧
    create_assessment pa ⟨colls, nid, some m :: rest⟩ = .error ⟨500, m⟩ ∧
    list_assessments rq ⟨colls, nid, some m :: rest⟩ = .error ⟨500, m⟩ ∧
    create_review pr ⟨colls, nid, some m :: rest⟩ = .error ⟨500, m⟩ ∧
    list_reviews o1 o2 ⟨colls, nid, some m :: rest⟩ = .error ⟨500, m⟩ ∧
    create_guild pu ⟨colls, nid, some m :: rest⟩ = .error ⟨500, m⟩ ∧
    list_guilds ⟨colls, nid, some m :: rest⟩ = .error ⟨500, m⟩ ∧
    create_mentorship pm ⟨colls, nid, some m :: rest⟩ = .error ⟨500, m⟩ ∧
    list_mentorships o1 o2 ⟨colls, nid, some m :: rest⟩ = .error ⟨500, m⟩ ∧
    create_resource ps ⟨colls, nid, some m :: rest⟩ = .error ⟨500, m⟩ ∧
    list_resources o1 ⟨colls, nid, some m :: rest⟩ = .error ⟨500, m⟩ ∧
    create_project pp ⟨colls, nid, some m :: rest⟩ = .error ⟨500, m⟩ ∧
    list_projects o1 o2 ⟨colls, nid, some m :: rest⟩ = .error ⟨500, m⟩ ∧
    create_notification pn ⟨colls, nid, some m :: rest⟩ = .error ⟨500, m⟩ ∧
    list_notifications o1 ⟨colls, nid, some m :: rest⟩ = .error ⟨500, m⟩ :=
  ⟨rfl, rfl, rfl, rfl, rfl, rfl, rfl, rfl, rfl, rfl, rfl, rfl, rfl, rfl, rfl,
   rfl, rfl, rfl⟩

/-- C3: evaluating the code at the claimed example. `POST /api/designers`
with name "Ada" and email "ada@x.com" succeeds and returns the new string
identifier, and the subsequent `GET /api/designers` lists the entry with
name "Ada" and current_level "Junior" — but the stored document has no
`guilds` field at all, because `main.py`'s `CreateDesigner` model omits the
`guilds` field that `schemas.Designer` declares with default `[]`. -/
theorem designer_create_stores_no_guilds :
    create_designer ⟨"Ada", "ada@x.com", none, "Junior"⟩ ⟨[], 0, []⟩ =
      .ok ("0", ⟨[("designer",
        [[("name", Value.str "Ada"), ("email", Value.str "ada@x.com"),
          ("manager_id", Value.null), ("current_level", Value.str "Junior"),
          ("_id", Value.int 0)]])], 1, []⟩) ∧
    list_designers ⟨[("designer",
      [[("name", Value.str "Ada"), ("email", Value.str "ada@x.com"),
        ("manager_id", Value.null), ("current_level", Value.str "Junior"),
        ("_id", Value.int 0)]])], 1, []⟩ =
      .ok [[("name", Value.str "Ada"), ("email", Value.str "ada@x.com"),
        ("manager_id", Value.null), ("current_level", Value.str "Junior"),
        ("_id", Value.str "0")]] ∧
    lookupField "name"
      [("name", Value.str "Ada"), ("email", Value.str "ada@x.com"),
       ("manager_id", Value.null), ("current_level", Value.str "Junior"),
       ("_id", Value.str "0")] = some (Value.str "Ada") ∧
    lookupField "current_level"
      [("name", Value.str "Ada"), ("email", Value.str "ada@x.com"),
       ("manager_id", Value.null), ("current_level", Value.str "Junior"),
       ("_id", Value.str "0")] = some (Value.str "Junior") ∧
    lookupField "guilds"
      [("name", Value.str "Ada"), ("email", Value.str "ada@x.com"),
       ("manager_id", Value.null), ("current_level", Value.str "Junior"),
       ("_id", Value.str "0")] = none :=
  ⟨rfl, rfl, rfl, rfl, rfl⟩

theorem lookupField_append_left (k : String) (d1 d2 : Doc) (v : Value)
    (h : lookupField k d1 = some v) :
    lookupField k (d1 ++ d2) = some v := by
  induction d1 with
  | nil => simp [lookupField, List.lookup] at h
  | cons kv rest ih =>
    obtain ⟨k', v'⟩ := kv
    rw [List.cons_append]
    unfold lookupField at h ⊢
    cases hk : (k == k') with
    | true => simpa [List.lookup, hk] using h
    | false =>
      simp only [List.lookup, hk] at h ⊢
      exact ih h

theorem roundtrip_handler (coll : String) (cap : Nat) (q : Query) (doc : Doc)
    (st : Store) (h : st.outcomes = [])
    (hid : lookupField "_id" doc = none)
    (hmatch : matchesQuery q (doc ++ [("_id", Value.int st.nextId)]) = true)
    (hcap : ((getColl st coll).filter (matchesQuery q)).length + 1 ≤ cap)
    (hfresh : ∀ d ∈ getColl st coll,
      lookupField "_id" (stringifyId d) ≠ some (.str (toString st.nextId))) :
    ∃ st', tryStore (create_document coll doc st) = .ok (toString st.nextId, st') ∧
      tryStore ((get_documents coll q cap st').map (fun r => r.1.map stringifyId)) =
        .ok ((((getColl st coll).filter (matchesQuery q)) ++
          [doc ++ [("_id", Value.int st.nextId)]]).map stringifyId) ∧
      ((((getColl st coll).filter (matchesQuery q)) ++
          [doc ++ [("_id", Value.int st.nextId)]]).map stringifyId).countP
        (fun d => lookupField "_id" d == some (.str (toString st.nextId))) = 1 ∧
      lookupField "_id" (stringifyId (doc ++ [("_id", Value.int st.nextId)])) =
        some (.str (toString st.nextId)) := by
  have hlook : lookupField "_id" (doc ++ [("_id", Value.int st.nextId)]) =
      some (Value.int st.nextId) := by
    rw [lookupField_append_right _ _ _ hid]
    simp [lookupField, List.lookup]
  have hnew : lookupField "_id" (stringifyId (doc ++ [("_id", Value.int st.nextId)])) =
      some (Value.str (toString st.nextId)) := by
    unfold stringifyId
    rw [hlook]
    simpa [pyStrOfValue] using
      lookupField_setField_self "_id" (Value.str (toString st.nextId)) _
  refine ⟨⟨setCollList coll
      (getColl st coll ++ [doc ++ [("_id", Value.int st.nextId)]]) st.colls,
      st.nextId + 1, st.outcomes⟩, ?_, ?_, ?_, hnew⟩
  · rw [create_document_ok _ _ _ h]
    rfl
  · rw [get_documents_ok _ _ _ _ (by simpa using h)]
    rw [getColl_setCollList_self]
    rw [List.filter_append]
    have hone : [doc ++ [("_id", Value.int st.nextId)]].filter (matchesQuery q) =
        [doc ++ [("_id", Value.int st.nextId)]] := by
      simp [List.filter, hmatch]
    rw [hone]
    rw [List.take_of_length_le (by simp only [List.length_append,
      List.length_cons, List.length_nil]; omega)]
    rfl
  · rw [List.map_append, List.countP_append]
    have h0 : (((getColl st coll).filter (matchesQuery q)).map stringifyId).countP
        (fun d => lookupField "_id" d == some (.str (toString st.nextId))) = 0 := by
      rw [List.countP_eq_zero]
      intro d hd
      rcases List.mem_map.mp hd with ⟨d', hd', rfl⟩
      simp [beq_eq_false_iff_ne.mpr (hfresh d' (List.mem_of_mem_filter hd'))]
    have h1 : ([doc ++ [("_id", Value.int st.nextId)]].map stringifyId).countP
        (fun d => lookupField "_id" d == some (.str (toString st.nextId))) = 1 := by
      simp only [List.map_cons, List.map_nil, List.countP_cons, List.countP_nil]
      rw [hnew]
      simp
    rw [h0, h1]

/-- C4 (amended): for every entity, a document created via the POST endpoint
and then fetched via the matching GET list endpoint with no filters (for
assessments, whose list endpoint requires `designer_id`, with that filter
equal to the created document's designer) appears exactly once — provided the
store assigns a fresh identifier and the matching documents fit within the
endpoint's cap. Every submitted field is preserved in the stored document as
rendered by the entity's `...Data` function — unchanged except for the
documented normalizations (goal `target_date` ISO parsing, assessment rating
clamping) — with defaulted fields and a string `_id` added. -/
theorem create_then_list_roundtrip :
    (∀ (p : CreateDesigner) (st : Store), st.outcomes = [] →
      (getColl st "designer").length + 1 ≤ 200 →
      (∀ d ∈ getColl st "designer",
        lookupField "_id" (stringifyId d) ≠ some (.str (toString st.nextId))) →
      ∃ st', create_designer p st = .ok (toString st.nextId, st') ∧
        list_designers st' = .ok ((getColl st "designer" ++ [designerData p ++ [("_id", Value.int st.nextId)]]).map stringifyId) ∧
        ((getColl st "designer" ++ [designerData p ++ [("_id", Value.int st.nextId)]]).map stringifyId).countP
          (fun d => lookupField "_id" d == some (.str (toString st.nextId))) = 1) ∧
    (∀ (p : CreateGoal) (st : Store), st.outcomes = [] →
      (getColl st "goal").length + 1 ≤ 500 →
      (∀ d ∈ getColl st "goal",
        lookupField "_id" (stringifyId d) ≠ some (.str (toString st.nextId))) →
      ∃ st', create_goal p st = .ok (toString st.nextId, st') ∧
        list_goals none st' = .ok ((getColl st "goal" ++ [goalData p ++ [("_id", Value.int st.nextId)]]).map stringifyId) ∧
        ((getColl st "goal" ++ [goalData p ++ [("_id", Value.int st.nextId)]]).map stringifyId).countP
          (fun d => lookupField "_id" d == some (.str (toString st.nextId))) = 1) ∧
    (∀ (p : CreateAssessment) (st : Store), st.outcomes = [] →
      ((getColl st "skillassessment").filter
        (matchesQuery [("designer_id", QCond.eqv (.str p.designer_id))])).length + 1 ≤ 100 →
      (∀ d ∈ getColl st "skillassessment",
        lookupField "_id" (stringifyId d) ≠ some (.str (toString st.nextId))) →
      ∃ st', create_assessment p st = .ok (toString st.nextId, st') ∧
        list_assessments p.designer_id st' = .ok ((((getColl st "skillassessment").filter (matchesQuery [("designer_id", QCond.eqv (.str p.designer_id))])) ++ [assessmentData p ++ [("_id", Value.int st.nextId)]]).map stringifyId) ∧
        ((((getColl st "skillassessment").filter (matchesQuery [("designer_id", QCond.eqv (.str p.designer_id))])) ++ [assessmentData p ++ [("_id", Value.int st.nextId)]]).map stringifyId).countP
          (fun d => lookupField "_id" d == some (.str (toString st.nextId))) = 1) ∧
    (∀ (p : CreateReview) (st : Store), st.outcomes = [] →
      (getColl st "review").length + 1 ≤ 200 →
      (∀ d ∈ getColl st "review",
        lookupField "_id" (stringifyId d) ≠ some (.str (toString st.nextId))) →
      ∃ st', create_review p st = .ok (toString st.nextId, st') ∧
        list_reviews none none st' = .ok ((getColl st "review" ++ [reviewData p ++ [("_id", Value.int st.nextId)]]).map stringifyId) ∧
        ((getColl st "review" ++ [reviewData p ++ [("_id", Value.int st.nextId)]]).map stringifyId).countP
          (fun d => lookupField "_id" d == some (.str (toString st.nextId))) = 1) ∧
    (∀ (p : CreateGuild) (st : Store), st.outcomes = [] →
      (getColl st "guild").length + 1 ≤ 200 →
      (∀ d ∈ getColl st "guild",
        lookupField "_id" (stringifyId d) ≠ some (.str (toString st.nextId))) →
      ∃ st', create_guild p st = .ok (toString st.nextId, st') ∧
        list_guilds st' = .ok ((getColl st "guild" ++ [guildData p ++ [("_id", Value.int st.nextId)]]).map stringifyId) ∧
        ((getColl st "guild" ++ [guildData p ++ [("_id", Value.int st.nextId)]]).map stringifyId).countP
          (fun d => lookupField "_id" d == some (.str (toString st.nextId))) = 1) ∧
    (∀ (p : CreateMentorship) (st : Store), st.outcomes = [] →
      (getColl st "mentorship").length + 1 ≤ 200 →
      (∀ d ∈ getColl st "mentorship",
        lookupField "_id" (stringifyId d) ≠ some (.str (toString st.nextId))) →
      ∃ st', create_mentorship p st = .ok (toString st.nextId, st') ∧
        list_mentorships none none st' = .ok ((getColl st "mentorship" ++ [mentorshipData p ++ [("_id", Value.int st.nextId)]]).map stringifyId) ∧
        ((getColl st "mentorship" ++ [mentorshipData p ++ [("_id", Value.int st.nextId)]]).map stringifyId).countP
          (fun d => lookupField "_id" d == some (.str (toString st.nextId))) = 1) ∧
    (∀ (p : CreateResource) (st : Store), st.outcomes = [] →
      (getColl st "trainingresource").length + 1 ≤ 200 →
      (∀ d ∈ getColl st "trainingresource",
        lookupField "_id" (stringifyId d) ≠ some (.str (toString st.nextId))) →
      ∃ st', create_resource p st = .ok (toString st.nextId, st') ∧
        list_resources none st' = .ok ((getColl st "trainingresource" ++ [resourceData p ++ [("_id", Value.int st.nextId)]]).map stringifyId) ∧
        ((getColl st "trainingresource" ++ [resourceData p ++ [("_id", Value.int st.nextId)]]).map stringifyId).countP
          (fun d => lookupField "_id" d == some (.str (toString st.nextId))) = 1) ∧
    (∀ (p : CreateProject) (st : Store), st.outcomes = [] →
      (getColl st "project").length + 1 ≤ 200 →
      (∀ d ∈ getColl st "project",
        lookupField "_id" (stringifyId d) ≠ some (.str (toString st.nextId))) →
      ∃ st', create_project p st = .ok (toString st.nextId, st') ∧
        list_projects none none st' = .ok ((getColl st "project" ++ [projectData p ++ [("_id", Value.int st.nextId)]]).map stringifyId) ∧
        ((getColl st "project" ++ [projectData p ++ [("_id", Value.int st.nextId)]]).map stringifyId).countP
          (fun d => lookupField "_id" d == some (.str (toString st.nextId))) = 1) ∧
    (∀ (p : CreateNotification) (st : Store), st.outcomes = [] →
      (getColl st "notification").length + 1 ≤ 200 →
      (∀ d ∈ getColl st "notification",
        lookupField "_id" (stringifyId d) ≠ some (.str (toString st.nextId))) →
      ∃ st', create_notification p st = .ok (toString st.nextId, st') ∧
        list_notifications none st' = .ok ((getColl st "notification" ++ [notificationData p ++ [("_id", Value.int st.nextId)]]).map stringifyId) ∧
        ((getColl st "notification" ++ [notificationData p ++ [("_id", Value.int st.nextId)]]).map stringifyId).countP
          (fun d => lookupField "_id" d == some (.str (toString st.nextId))) = 1) ∧
    (∀ (p : CreateGoal) (n : Nat),
      lookupField "designer_id" (stringifyId (goalData p ++ [("_id", Value.int n)])) =
        some (.str p.designer_id) ∧
      lookupField "title" (stringifyId (goalData p ++ [("_id", Value.int n)])) =
        some (.str p.title) ∧
      lookupField "description" (stringifyId (goalData p ++ [("_id", Value.int n)])) =
        some (optStr p.description) ∧
      lookupField "competency_key" (stringifyId (goalData p ++ [("_id", Value.int n)])) =
        some (optStr p.competency_key) ∧
      lookupField "target_date" (stringifyId (goalData p ++ [("_id", Value.int n)])) =
        some (normTargetDate p.target_date)) := by
  refine ⟨?_, ?_, ?_, ?_, ?_, ?_, ?_, ?_, ?_, ?_⟩
  · intro p st h hcap hfresh
    have hid : lookupField "_id" (designerData p) = none := by
      simp [designerData, lookupField, List.lookup]
    have hcap2 : ((getColl st "designer").filter (matchesQuery [])).length + 1 ≤ 200 := by
      rw [filter_matchesQuery_nil]
      exact hcap
    rcases roundtrip_handler "designer" 200 [] (designerData p) st h hid rfl hcap2 hfresh
      with ⟨st', hc, hg, hcount, hnew⟩
    rw [filter_matchesQuery_nil] at hg hcount
    exact ⟨st', hc, hg, hcount⟩
  · intro p st h hcap hfresh
    have hid : lookupField "_id" (goalData p) = none := by
      simp [goalData, lookupField, List.lookup]
    have hcap2 : ((getColl st "goal").filter (matchesQuery [])).length + 1 ≤ 500 := by
      rw [filter_matchesQuery_nil]
      exact hcap
    rcases roundtrip_handler "goal" 500 [] (goalData p) st h hid rfl hcap2 hfresh
      with ⟨st', hc, hg, hcount, hnew⟩
    rw [filter_matchesQuery_nil] at hg hcount
    exact ⟨st', hc, hg, hcount⟩
  · intro p st h hcap hfresh
    have hid : lookupField "_id" (assessmentData p) = none := by
      simp [assessmentData, lookupField, List.lookup]
    have hmatch : matchesQuery [("designer_id", QCond.eqv (.str p.designer_id))]
        (assessmentData p ++ [("_id", Value.int st.nextId)]) = true := by
      refine (matchesQuery_eq_single _ _ _).mpr ?_
      refine lookupField_append_left _ _ _ _ ?_
      simp [assessmentData, lookupField, List.lookup]
    rcases roundtrip_handler "skillassessment" 100 _ (assessmentData p) st h hid
      hmatch hcap hfresh with ⟨st', hc, hg, hcount, hnew⟩
    exact ⟨st', hc, hg, hcount⟩
  · intro p st h hcap hfresh
    have hid : lookupField "_id" (reviewData p) = none := by
      simp [reviewData, lookupField, List.lookup]
    have hcap2 : ((getColl st "review").filter (matchesQuery [])).length + 1 ≤ 200 := by
      rw [filter_matchesQuery_nil]
      exact hcap
    rcases roundtrip_handler "review" 200 [] (reviewData p) st h hid rfl hcap2 hfresh
      with ⟨st', hc, hg, hcount, hnew⟩
    rw [filter_matchesQuery_nil] at hg hcount
    exact ⟨st', hc, hg, hcount⟩
  · intro p st h hcap hfresh
    have hid : lookupField "_id" (guildData p) = none := by
      simp [guildData, lookupField, List.lookup]
    have hcap2 : ((getColl st "guild").filter (matchesQuery [])).length + 1 ≤ 200 := by
      rw [filter_matchesQuery_nil]
      exact hcap
    rcases roundtrip_handler "guild" 200 [] (guildData p) st h hid rfl hcap2 hfresh
      with ⟨st', hc, hg, hcount, hnew⟩
    rw [filter_matchesQuery_nil] at hg hcount
    exact ⟨st', hc, hg, hcount⟩
  · intro p st h hcap hfresh
    have hid : lookupField "_id" (mentorshipData p) = none := by
      simp [mentorshipData, lookupField, List.lookup]
    have hcap2 : ((getColl st "mentorship").filter (matchesQuery [])).length + 1 ≤ 200 := by
      rw [filter_matchesQuery_nil]
      exact hcap
    rcases roundtrip_handler "mentorship" 200 [] (mentorshipData p) st h hid rfl hcap2 hfresh
      with ⟨st', hc, hg, hcount, hnew⟩
    rw [filter_matchesQuery_nil] at hg hcount
    exact ⟨st', hc, hg, hcount⟩
  · intro p st h hcap hfresh
    have hid : lookupField "_id" (resourceData p) = none := by
      simp [resourceData, lookupField, List.lookup]
    have hcap2 : ((getColl st "trainingresource").filter (matchesQuery [])).length + 1 ≤ 200 := by
      rw [filter_matchesQuery_nil]
      exact hcap
    rcases roundtrip_handler "trainingresource" 200 [] (resourceData p) st h hid rfl hcap2 hfresh
      with ⟨st', hc, hg, hcount, hnew⟩
    rw [filter_matchesQuery_nil] at hg hcount
    exact ⟨st', hc, hg, hcount⟩
  · intro p st h hcap hfresh
    have hid : lookupField "_id" (projectData p) = none := by
      simp [projectData, lookupField, List.lookup]
    have hcap2 : ((getColl st "project").filter (matchesQuery [])).length + 1 ≤ 200 := by
      rw [filter_matchesQuery_nil]
      exact hcap
    rcases roundtrip_handler "project" 200 [] (projectData p) st h hid rfl hcap2 hfresh
      with ⟨st', hc, hg, hcount, hnew⟩
    rw [filter_matchesQuery_nil] at hg hcount
    exact ⟨st', hc, hg, hcount⟩
  · intro p st h hcap hfresh
    have hid : lookupField "_id" (notificationData p) = none := by
      simp [notificationData, lookupField, List.lookup]
    have hcap2 : ((getColl st "notification").filter (matchesQuery [])).length + 1 ≤ 200 := by
      rw [filter_matchesQuery_nil]
      exact hcap
    rcases roundtrip_handler "notification" 200 [] (notificationData p) st h hid rfl hcap2 hfresh
      with ⟨st', hc, hg, hcount, hnew⟩
    rw [filter_matchesQuery_nil] at hg hcount
    exact ⟨st', hc, hg, hcount⟩
  · intro p n
    refine ⟨?_, ?_, ?_, ?_, ?_⟩ <;>
      (rw [lookupField_stringifyId _ _ (by decide)] ;
       exact lookupField_append_left _ _ _ _ (by simp [goalData, lookupField, List.lookup]))

/-- Counterexample for C4 as stated: a valid goal payload submitting
`target_date` as the string "2025-01-01" round-trips with that field value
changed — it is stored and returned as a datetime, not as the submitted
string, so not every submitted field value is preserved unchanged. -/
theorem goal_roundtrip_target_date_cex :
    create_goal ⟨"d1", "Ship", none, none, some "2025-01-01"⟩ ⟨[], 0, []⟩ =
      .ok ("0", ⟨[("goal",
        [[("designer_id", Value.str "d1"), ("title", Value.str "Ship"),
          ("description", Value.null), ("competency_key", Value.null),
          ("target_date", Value.datetime ⟨2025, 1, 1, 0, 0, 0, 0⟩),
          ("status", Value.str "not_started"), ("progress", Value.int 0),
          ("_id", Value.int 0)]])], 1, []⟩) ∧
    list_goals none ⟨[("goal",
      [[("designer_id", Value.str "d1"), ("title", Value.str "Ship"),
        ("description", Value.null), ("competency_key", Value.null),
        ("target_date", Value.datetime ⟨2025, 1, 1, 0, 0, 0, 0⟩),
        ("status", Value.str "not_started"), ("progress", Value.int 0),
        ("_id", Value.int 0)]])], 1, []⟩ =
      .ok [[("designer_id", Value.str "d1"), ("title", Value.str "Ship"),
        ("description", Value.null), ("competency_key", Value.null),
        ("target_date", Value.datetime ⟨2025, 1, 1, 0, 0, 0, 0⟩),
        ("status", Value.str "not_started"), ("progress", Value.int 0),
        ("_id", Value.str "0")]] ∧
    lookupField "target_date"
      [("designer_id", Value.str "d1"), ("title", Value.str "Ship"),
       ("description", Value.null), ("competency_key", Value.null),
       ("target_date", Value.datetime ⟨2025, 1, 1, 0, 0, 0, 0⟩),
       ("status", Value.str "not_started"), ("progress", Value.int 0),
       ("_id", Value.str "0")] =
      some (Value.datetime ⟨2025, 1, 1, 0, 0, 0, 0⟩) ∧
    some (Value.datetime ⟨2025, 1, 1, 0, 0, 0, 0⟩) ≠ some (Value.str "2025-01-01") :=
  ⟨rfl, rfl, rfl, by decide⟩

/-- Witness for C4's amended theorem: the goal and assessment round trips at
an empty healthy store, where the new document is counted exactly once. -/
theorem create_then_list_roundtrip_witness :
    ((getColl ⟨[], 0, []⟩ "goal" ++
      [goalData ⟨"d9", "Learn", none, none, none⟩ ++ [("_id", Value.int 0)]]).map
        stringifyId).countP
      (fun d => lookupField "_id" d == some (.str "0")) = 1 ∧
    ((((getColl ⟨[], 0, []⟩ "skillassessment").filter
      (matchesQuery [("designer_id", QCond.eqv (.str "d1"))])) ++
      [assessmentData ⟨"d1", "2025-H1", [("craft_quality", 9)], none⟩ ++
        [("_id", Value.int 0)]]).map stringifyId).countP
      (fun d => lookupField "_id" d == some (.str "0")) = 1 := by
  constructor
  · rcases create_then_list_roundtrip.2.1 ⟨"d9", "Learn", none, none, none⟩
      ⟨[], 0, []⟩ rfl (by decide) (by decide) with ⟨st', hc, hl, hcount⟩
    exact hcount
  · rcases create_then_list_roundtrip.2.2.1
      ⟨"d1", "2025-H1", [("craft_quality", 9)], none⟩
      ⟨[], 0, []⟩ rfl (by decide) (by decide) with ⟨st', hc, hl, hcount⟩
    exact hcount
